import Mathlib

/-!
Shallow embedding of `src/utils/gamecontroller.py` (class `GameController`).

Python interacts with the operating system through `os`, `psutil`, `win32gui`
and `ctypes.windll.user32`.  We model the OS as an oracle record `OS` fixing
the outcome of every primitive the module calls, and each method as a pure
function of the controller and the oracle returning its Python result, the
(unchanged) controller, the ordered trace of OS side effects (`Ev`) and the
ordered trace of log records (`LogEv`).  Python exceptions are modelled by
`Except Exn`; an `Exn` carries its message and whether it is an `IndexError`
(the only exception class the module ever catches selectively).
-/

namespace GameCtrl

/-- A Python exception value: its message and whether it is an `IndexError`. -/
structure Exn where
  isIndexError : Bool
  msg : String
deriving DecidableEq, Repr

/-- One entry of `psutil.process_iter(attrs=["pid", "name"])`, together with
the outcome of calling `.username()` on it (which may raise). -/
structure ProcInfo where
  pid : Nat
  name : String
  username : Except Exn String
deriving Repr

/-- The OS oracle: the outcome of every OS primitive the module invokes.
`systemRet` is the exit status returned by `os.system` (which reports shell
failure through a nonzero status, not an exception).  `setfg1`/`setfg2` are
the return values of the first and second `SetForegroundWindow` call made by
one `set_foreground_window_with_retry` invocation (0 means the OS refused).
`getClientRect` may raise, as `win32gui.GetClientRect` can. -/
structure OS where
  pathExists : String → Bool
  systemRet : String → Int
  getlogin : Except Exn String
  processes : List ProcInfo
  procLookup : Nat → Except Exn Unit
  terminateRes : Nat → Except Exn Unit
  waitRes : Nat → Except Exn Unit
  findWindow : Option String → String → Int
  setfg1 : Int
  setfg2 : Int
  getClientRect : Int → Except Exn (Int × Int × Int × Int)

/-- OS side-effect events, in the order the module issues them. -/
inductive Ev where
  | system (cmd : String)
  | terminate (pid : Nat)
  | waitE (pid : Nat) (timeout : Nat)
  | findWindow (cls : Option String) (title : String)
  | showWindow (hwnd : Int) (state : Nat)
  | setForeground (hwnd : Int)
  | getClientRect (hwnd : Int)
  | sleepE (secs : Nat)
deriving DecidableEq, Repr

/-- Log records, by severity. -/
inductive LogEv where
  | debug (m : String)
  | info (m : String)
  | warning (m : String)
  | error (m : String)
deriving DecidableEq, Repr

/-- The controller: bound identity fields plus the optional logging sink
(`L` is the caller's logger type). -/
structure GameController (L : Type) where
  game_path : String
  process_name : String
  window_name : String
  window_class : Option String
  logger : Option L

/-- Embedding of `GameController.__init__`.  `normpath` stands for
`os.path.normpath`, a pure string-to-string path normalization applied to
`game_path` before it is stored. -/
def GameController.init {L : Type} (normpath : String → String)
    (game_path process_name window_name : String)
    (window_class : Option String) (logger : Option L) : GameController L :=
  ⟨normpath game_path, process_name, window_name, window_class, logger⟩

/-- Result of one public method call: Python return value, the controller
as the method leaves it, OS events and log records in order. -/
structure OpOut (L α : Type) where
  ret : α
  ctrl : GameController L
  events : List Ev
  logs : List LogEv

namespace GameController

variable {L : Type}

/-- `log_debug`: emits a debug record iff the logger is not `None`. -/
def log_debug (c : GameController L) (m : String) : List LogEv :=
  match c.logger with
  | none => []
  | some _ => [LogEv.debug m]

/-- `log_info`: emits an info record iff the logger is not `None`. -/
def log_info (c : GameController L) (m : String) : List LogEv :=
  match c.logger with
  | none => []
  | some _ => [LogEv.info m]

/-- `log_error`: emits an error record iff the logger is not `None`. -/
def log_error (c : GameController L) (m : String) : List LogEv :=
  match c.logger with
  | none => []
  | some _ => [LogEv.error m]

/-- `log_warning`: emits a warning record iff the logger is not `None`. -/
def log_warning (c : GameController L) (m : String) : List LogEv :=
  match c.logger with
  | none => []
  | some _ => [LogEv.warning m]

end GameController

/-- Whether `needle` occurs as a contiguous run inside the character list. -/
def charsContain (needle : List Char) : List Char → Bool
  | [] => needle.isEmpty
  | c :: t => needle.isPrefixOf (c :: t) || charsContain needle t

/-- Python's `needle in haystack` on strings (substring containment). -/
def strContains (hay needle : String) : Bool :=
  charsContain needle.toList hay.toList

/-- Python's `str.split(sep)` for a one-character separator, on character
lists: splitting the empty string yields one empty group. -/
def splitOnChar (sep : Char) : List Char → List (List Char)
  | [] => [[]]
  | c :: cs =>
    if c = sep then [] :: splitOnChar sep cs
    else
      match splitOnChar sep cs with
      | [] => [[c]]
      | g :: gs => (c :: g) :: gs

/-- `username.split("\\")[-1]`: the owner name with any domain prefix
stripped (the separator is the single backslash character). -/
def stripDomain (u : String) : String :=
  String.mk ((splitOnChar '\\' u.toList).getLastD [])

/-- The shell command `start_game` passes to `os.system`. -/
def spawnCmd (path : String) : String :=
  "cmd /C start \"\" \"" ++ path ++ "\""

namespace GameController

variable {L : Type}

/-- Embedding of `start_game`: refuse if the path does not exist, otherwise
spawn through the shell and succeed iff the shell reported exit status 0
(Python's `if not os.system(...)`). -/
def start_game (c : GameController L) (os : OS) : OpOut L Bool :=
  if ¬ os.pathExists c.game_path then
    ⟨false, c, [], c.log_error ("游戏路径不存在：" ++ c.game_path)⟩
  else if os.systemRet (spawnCmd c.game_path) = 0 then
    ⟨true, c, [Ev.system (spawnCmd c.game_path)],
      c.log_info ("游戏启动：" ++ c.game_path)⟩
  else
    ⟨false, c, [Ev.system (spawnCmd c.game_path)], c.log_error "启动游戏时发生错误"⟩

end GameController

/-- The body of the `for` loop of `terminate_named_process` for one process:
substring-match the name, resolve and compare the owner, then
`psutil.Process(pid)`, `.terminate()`, `.wait(timeout)`, any of which may
raise and abort the loop. -/
def tnpStep (os : OS) (login target : String) (timeout : Nat) (p : ProcInfo) :
    Except Exn Unit × List Ev :=
  if strContains p.name target then
    match p.username with
    | Except.error e => (Except.error e, [])
    | Except.ok u =>
      if login = stripDomain u then
        match os.procLookup p.pid with
        | Except.error e => (Except.error e, [])
        | Except.ok _ =>
          match os.terminateRes p.pid with
          | Except.error e => (Except.error e, [Ev.terminate p.pid])
          | Except.ok _ =>
            match os.waitRes p.pid with
            | Except.error e =>
              (Except.error e, [Ev.terminate p.pid, Ev.waitE p.pid timeout])
            | Except.ok _ =>
              (Except.ok (), [Ev.terminate p.pid, Ev.waitE p.pid timeout])
      else (Except.ok (), [])
  else (Except.ok (), [])

/-- The `for` loop of `terminate_named_process` over the process list; a
raised exception propagates, keeping the events already produced. -/
def tnpLoop (os : OS) (login target : String) (timeout : Nat) :
    List ProcInfo → Except Exn Unit × List Ev
  | [] => (Except.ok (), [])
  | p :: ps =>
    match tnpStep os login target timeout p with
    | (Except.ok _, evs) =>
      let rest := tnpLoop os login target timeout ps
      (rest.1, evs ++ rest.2)
    | (Except.error e, evs) => (Except.error e, evs)

/-- Embedding of the static method `terminate_named_process`: get the login
name (may raise) and run the loop.  The Python function returns `None`
(despite its docstring), so the success value is `Unit`. -/
def terminate_named_process (os : OS) (target : String) (timeout : Nat) :
    Except Exn Unit × List Ev :=
  match os.getlogin with
  | Except.error e => (Except.error e, [])
  | Except.ok login => tnpLoop os login target timeout os.processes

namespace GameController

variable {L : Type}

/-- Embedding of `stop_game`: run `terminate_named_process` (with the
default 10-second timeout) under a catch-all handler; `True` iff nothing
raised. -/
def stop_game (c : GameController L) (os : OS) : OpOut L Bool :=
  match terminate_named_process os c.process_name 10 with
  | (Except.ok _, evs) =>
    ⟨true, c, evs, c.log_info ("游戏终止：" ++ c.process_name)⟩
  | (Except.error e, evs) =>
    ⟨false, c, evs, c.log_error ("终止游戏时发生错误：" ++ e.msg)⟩

end GameController

/-- `ShowWindow` constant `SW_MINIMIZE`. -/
def SW_MINIMIZE : Nat := 6

/-- `ShowWindow` constant `SW_RESTORE`. -/
def SW_RESTORE : Nat := 9

/-- Embedding of the static method `set_foreground_window_with_retry`:
restore the window, request foreground focus; on refusal (return value 0)
minimize, restore, and retry once; on a second refusal raise
`Exception("Failed to set window foreground")`. -/
def set_foreground_window_with_retry (os : OS) (hwnd : Int) :
    Except Exn Unit × List Ev :=
  if os.setfg1 = 0 then
    if os.setfg2 = 0 then
      (Except.error ⟨false, "Failed to set window foreground"⟩,
        [Ev.showWindow hwnd SW_RESTORE, Ev.setForeground hwnd,
         Ev.showWindow hwnd SW_MINIMIZE, Ev.showWindow hwnd SW_RESTORE,
         Ev.setForeground hwnd])
    else
      (Except.ok (),
        [Ev.showWindow hwnd SW_RESTORE, Ev.setForeground hwnd,
         Ev.showWindow hwnd SW_MINIMIZE, Ev.showWindow hwnd SW_RESTORE,
         Ev.setForeground hwnd])
  else
    (Except.ok (), [Ev.showWindow hwnd SW_RESTORE, Ev.setForeground hwnd])

/-- The five values of `shutdown`'s `Literal` action parameter. -/
inductive Action where
  | Exit
  | Loop
  | Shutdown
  | Sleep
  | Hibernate
deriving DecidableEq, Repr

/-- The string form of an action, as interpolated into log messages. -/
def actionName : Action → String
  | Action.Exit => "Exit"
  | Action.Loop => "Loop"
  | Action.Shutdown => "Shutdown"
  | Action.Sleep => "Sleep"
  | Action.Hibernate => "Hibernate"

namespace GameController

variable {L : Type}

/-- Embedding of `switch_to_game`: look the window up by class and title
under a catch-all handler; `False` on handle 0 (debug log) or on a raised
focus failure (error log), `True` when focusing succeeded. -/
def switch_to_game (c : GameController L) (os : OS) : OpOut L Bool :=
  let hwnd := os.findWindow c.window_class c.window_name
  let fe := [Ev.findWindow c.window_class c.window_name]
  if hwnd = 0 then
    ⟨false, c, fe, c.log_debug "游戏窗口未找到"⟩
  else
    match set_foreground_window_with_retry os hwnd with
    | (Except.ok _, evs) =>
      ⟨true, c, fe ++ evs, c.log_info "游戏窗口已切换到前台"⟩
    | (Except.error e, evs) =>
      ⟨false, c, fe ++ evs, c.log_error ("激活游戏窗口时发生错误：" ++ e.msg)⟩

/-- Embedding of `get_resolution`: look the window up; on handle 0 return
`None`; otherwise query the client rectangle and return its last two
components.  Only `IndexError` is caught (returning `None`); any other
exception from the geometry query propagates to the caller, which the
`Except.error` result records. -/
def get_resolution (c : GameController L) (os : OS) :
    OpOut L (Except Exn (Option (Int × Int))) :=
  let hwnd := os.findWindow c.window_class c.window_name
  let fe := [Ev.findWindow c.window_class c.window_name]
  if hwnd = 0 then
    ⟨Except.ok none, c, fe, c.log_debug "游戏窗口未找到"⟩
  else
    match os.getClientRect hwnd with
    | Except.ok (_, _, w, h) =>
      ⟨Except.ok (some (w, h)), c, fe ++ [Ev.getClientRect hwnd], []⟩
    | Except.error e =>
      if e.isIndexError then
        ⟨Except.ok none, c, fe ++ [Ev.getClientRect hwnd],
          c.log_debug "游戏窗口未找到"⟩
      else
        ⟨Except.error e, c, fe ++ [Ev.getClientRect hwnd], []⟩

/-- Embedding of `shutdown`: always run `stop_game` first (result ignored);
for `Exit`/`Loop` return `True` at once; otherwise warn, sleep for `delay`
seconds, then dispatch the power command(s) for the action and return
`True` (in this model `os.system` reports failure by exit status, never by
raising, so the `except` branch is unreachable). -/
def shutdown (c : GameController L) (os : OS) (action : Action) (delay : Nat) :
    OpOut L Bool :=
  let s := stop_game c os
  if action ∉ [Action.Shutdown, Action.Hibernate, Action.Sleep] then
    ⟨true, c, s.events, s.logs⟩
  else
    let lgs := s.logs ++
      c.log_warning ("将在" ++ toString delay ++ "秒后开始执行系统操作：" ++
        actionName action)
    let pcmds :=
      if action = Action.Shutdown then [Ev.system "shutdown /s /t 0"]
      else if action = Action.Sleep then
        [Ev.system "powercfg -h off",
         Ev.system "rundll32.exe powrprof.dll,SetSuspendState 0,1,0",
         Ev.system "powercfg -h on"]
      else if action = Action.Hibernate then [Ev.system "shutdown /h"]
      else []
    ⟨true, c, s.events ++ Ev.sleepE delay :: pcmds,
      lgs ++ c.log_info ("执行系统操作：" ++ actionName action)⟩

end GameController

/-- Whether an event is one of the five power commands `shutdown` can
dispatch through `os.system`. -/
def isPowerCmd : Ev → Bool
  | Ev.system cmd =>
    (cmd == "shutdown /s /t 0") || (cmd == "powercfg -h off") ||
    (cmd == "rundll32.exe powrprof.dll,SetSuspendState 0,1,0") ||
    (cmd == "powercfg -h on") || (cmd == "shutdown /h")
  | _ => false

/-- Whether an event is a `time.sleep` call. -/
def isSleepEv : Ev → Bool
  | Ev.sleepE _ => true
  | _ => false

/-- Whether an event is a process-control call (`terminate` or `wait`),
the only kinds of event `terminate_named_process` produces. -/
def isProcEv : Ev → Bool
  | Ev.terminate _ => true
  | Ev.waitE _ _ => true
  | _ => false

/-- An oracle under which every process-control primitive succeeds: the
exception-free runs of `terminate_named_process`. -/
def OS.benign (os : OS) : Prop :=
  (∀ pid, os.procLookup pid = Except.ok ()) ∧
  (∀ pid, os.terminateRes pid = Except.ok ()) ∧
  (∀ pid, os.waitRes pid = Except.ok ()) ∧
  (∀ p ∈ os.processes, ∃ u, p.username = Except.ok u)

/-! Concrete fixtures used by witnesses and counterexamples. -/

/-- A concrete controller with a logger attached. -/
def cW : GameController Unit :=
  ⟨"C:\\game\\StarRail.exe", "StarRail.exe", "崩坏：星穹铁道",
    some "UnityWndClass", some ()⟩

/-- A concrete process table: two name matches (one owned by another
user), one non-matching name. -/
def procsW : List ProcInfo :=
  [⟨41, "StarRail.exe", Except.ok "PC\\alice"⟩,
   ⟨42, "StarRail.exe", Except.ok "PC\\bob"⟩,
   ⟨43, "explorer.exe", Except.ok "PC\\alice"⟩]

/-- A fully successful oracle: path exists, shell succeeds, window found,
first foreground request accepted, geometry query answers. -/
def osW : OS :=
  { pathExists := fun _ => true
    systemRet := fun _ => 0
    getlogin := Except.ok "alice"
    processes := procsW
    procLookup := fun _ => Except.ok ()
    terminateRes := fun _ => Except.ok ()
    waitRes := fun _ => Except.ok ()
    findWindow := fun _ _ => 7
    setfg1 := 1
    setfg2 := 1
    getClientRect := fun _ => Except.ok (0, 0, 1920, 1080) }

/-- `osW` but the bound executable path does not exist. -/
def osMissing : OS := { osW with pathExists := fun _ => false }

/-- `osW` but no window matches the bound title. -/
def osNoWin : OS := { osW with findWindow := fun _ _ => 0 }

/-- `osW` but the first foreground request is refused and the retry
succeeds. -/
def osRetry : OS := { osW with setfg1 := 0, setfg2 := 1 }

/-- `osW` but both foreground requests are refused. -/
def osRefused : OS := { osW with setfg1 := 0, setfg2 := 0 }

/-- `osW` but the geometry query raises a non-`IndexError` exception. -/
def osBadRect : OS :=
  { osW with getClientRect := fun _ => Except.error ⟨false, "win32 error"⟩ }

/-- `osW` but the geometry query raises an `IndexError`. -/
def osIdxRect : OS :=
  { osW with getClientRect := fun _ => Except.error ⟨true, "index error"⟩ }

/-- `osW` with an empty process table. -/
def osNoProcs : OS := { osW with processes := [] }

/-! Claim theorems. -/

/-- C5: `start_game` returns `False` and issues no spawn command when the
bound path does not exist; when it exists, it issues exactly one shell
spawn command and returns `True` iff the shell reported exit status 0. -/
theorem start_game_path_and_spawn {L : Type} (c : GameController L) (os : OS) :
    (os.pathExists c.game_path = false →
      (c.start_game os).ret = false ∧ (c.start_game os).events = []) ∧
    (os.pathExists c.game_path = true →
      (c.start_game os).events = [Ev.system (spawnCmd c.game_path)] ∧
      ((c.start_game os).ret = true ↔
        os.systemRet (spawnCmd c.game_path) = 0)) := by
  constructor
  · intro h
    simp [GameController.start_game, h]
  · intro h
    by_cases h2 : os.systemRet (spawnCmd c.game_path) = 0 <;>
      simp [GameController.start_game, h, h2]

/-- Witness for C5: on `osMissing` the spawn is skipped and the call fails;
on `osW` exactly the spawn command is issued and the call succeeds. -/
theorem start_game_path_and_spawn_witness :
    (osMissing.pathExists cW.game_path = false ∧
      (cW.start_game osMissing).ret = false ∧
      (cW.start_game osMissing).events = []) ∧
    (osW.pathExists cW.game_path = true ∧
      (cW.start_game osW).events = [Ev.system (spawnCmd cW.game_path)] ∧
      (cW.start_game osW).ret = true) :=
  ⟨⟨rfl, (start_game_path_and_spawn cW osMissing).1 rfl⟩,
   ⟨rfl, ((start_game_path_and_spawn cW osW).2 rfl).1,
     ((start_game_path_and_spawn cW osW).2 rfl).2.mpr rfl⟩⟩

/-- C7: when the window lookup returns handle 0, `switch_to_game` returns
`False` having issued only the lookup (no restore, minimize or foreground
events), and `get_resolution` returns `None` having issued only the lookup
(no geometry query). -/
theorem window_not_found_no_calls {L : Type} (c : GameController L) (os : OS)
    (h : os.findWindow c.window_class c.window_name = 0) :
    (c.switch_to_game os).ret = false ∧
    (c.switch_to_game os).events =
      [Ev.findWindow c.window_class c.window_name] ∧
    (c.get_resolution os).ret = Except.ok none ∧
    (c.get_resolution os).events =
      [Ev.findWindow c.window_class c.window_name] := by
  simp [GameController.switch_to_game, GameController.get_resolution, h]

/-- Witness for C7: on `osNoWin` the lookup yields 0, the switch fails and
the resolution is absent, with only the lookup event issued. -/
theorem window_not_found_no_calls_witness :
    osNoWin.findWindow cW.window_class cW.window_name = 0 ∧
    (cW.switch_to_game osNoWin).ret = false ∧
    (cW.switch_to_game osNoWin).events =
      [Ev.findWindow cW.window_class cW.window_name] ∧
    (cW.get_resolution osNoWin).ret = Except.ok none :=
  ⟨rfl, (window_not_found_no_calls cW osNoWin rfl).1,
    (window_not_found_no_calls cW osNoWin rfl).2.1,
    (window_not_found_no_calls cW osNoWin rfl).2.2.1⟩

/-- C4: for a found window handle, the focus procedure restores the window
then requests focus; on refusal it minimizes, restores and retries once;
a second refusal raises the internal error, which `switch_to_game` catches
and logs, returning `False`; any accepted focus request makes
`switch_to_game` return `True`. -/
theorem focus_retry_protocol {L : Type} (c : GameController L) (os : OS)
    (h : os.findWindow c.window_class c.window_name ≠ 0) :
    (os.setfg1 ≠ 0 →
      (c.switch_to_game os).ret = true ∧
      (c.switch_to_game os).events =
        [Ev.findWindow c.window_class c.window_name,
         Ev.showWindow (os.findWindow c.window_class c.window_name) SW_RESTORE,
         Ev.setForeground (os.findWindow c.window_class c.window_name)]) ∧
    (os.setfg1 = 0 → os.setfg2 ≠ 0 →
      (c.switch_to_game os).ret = true ∧
      (c.switch_to_game os).events =
        [Ev.findWindow c.window_class c.window_name,
         Ev.showWindow (os.findWindow c.window_class c.window_name) SW_RESTORE,
         Ev.setForeground (os.findWindow c.window_class c.window_name),
         Ev.showWindow (os.findWindow c.window_class c.window_name) SW_MINIMIZE,
         Ev.showWindow (os.findWindow c.window_class c.window_name) SW_RESTORE,
         Ev.setForeground (os.findWindow c.window_class c.window_name)]) ∧
    (os.setfg1 = 0 → os.setfg2 = 0 →
      (c.switch_to_game os).ret = false ∧
      (c.switch_to_game os).events =
        [Ev.findWindow c.window_class c.window_name,
         Ev.showWindow (os.findWindow c.window_class c.window_name) SW_RESTORE,
         Ev.setForeground (os.findWindow c.window_class c.window_name),
         Ev.showWindow (os.findWindow c.window_class c.window_name) SW_MINIMIZE,
         Ev.showWindow (os.findWindow c.window_class c.window_name) SW_RESTORE,
         Ev.setForeground (os.findWindow c.window_class c.window_name)] ∧
      (c.switch_to_game os).logs =
        c.log_error ("激活游戏窗口时发生错误：" ++
          "Failed to set window foreground")) := by
  refine ⟨fun h1 => ?_, fun h1 h2 => ?_, fun h1 h2 => ?_⟩
  · simp [GameController.switch_to_game, set_foreground_window_with_retry,
      h, h1]
  · simp [GameController.switch_to_game, set_foreground_window_with_retry,
      h, h1, h2]
  · simp [GameController.switch_to_game, set_foreground_window_with_retry,
      h, h1, h2]

/-- Witness for C4: the three oracles `osW`, `osRetry`, `osRefused`
exercise the three branches at a concrete handle. -/
theorem focus_retry_protocol_witness :
    (osW.findWindow cW.window_class cW.window_name ≠ 0 ∧ osW.setfg1 ≠ 0 ∧
      (cW.switch_to_game osW).ret = true) ∧
    (osRetry.setfg1 = 0 ∧ osRetry.setfg2 ≠ 0 ∧
      (cW.switch_to_game osRetry).ret = true) ∧
    (osRefused.setfg1 = 0 ∧ osRefused.setfg2 = 0 ∧
      (cW.switch_to_game osRefused).ret = false) :=
  ⟨⟨by decide, by decide,
      ((focus_retry_protocol cW osW (by decide)).1 (by decide)).1⟩,
   ⟨rfl, by decide,
      (((focus_retry_protocol cW osRetry (by decide)).2.1 rfl (by decide))).1⟩,
   ⟨rfl, rfl,
      (((focus_retry_protocol cW osRefused (by decide)).2.2 rfl rfl)).1⟩⟩

/-- Every event produced by one loop step of `terminate_named_process` is a
process-control event. -/
theorem tnpStep_events_proc (os : OS) (login target : String) (timeout : Nat)
    (p : ProcInfo) :
    ∀ e ∈ (tnpStep os login target timeout p).2, isProcEv e = true := by
  unfold tnpStep
  repeat' split
  all_goals simp [isProcEv]

/-- Every event produced by the loop of `terminate_named_process` is a
process-control event. -/
theorem tnpLoop_events_proc (os : OS) (login target : String) (timeout : Nat) :
    ∀ ps : List ProcInfo,
      ∀ e ∈ (tnpLoop os login target timeout ps).2, isProcEv e = true := by
  intro ps
  induction ps with
  | nil => simp [tnpLoop]
  | cons p ps ih =>
    intro e he
    unfold tnpLoop at he
    rcases hs : tnpStep os login target timeout p with ⟨r, evs⟩
    rcases r with e' | u
    · rw [hs] at he
      exact tnpStep_events_proc os login target timeout p e (by rw [hs]; exact he)
    · rw [hs] at he
      simp only [List.mem_append] at he
      rcases he with he | he
      · exact tnpStep_events_proc os login target timeout p e (by rw [hs]; exact he)
      · exact ih e he

/-- Every event produced by `terminate_named_process` is a process-control
event: in particular its trace holds no `os.system` or `time.sleep` call. -/
theorem tnp_events_proc (os : OS) (target : String) (timeout : Nat) :
    ∀ e ∈ (terminate_named_process os target timeout).2, isProcEv e = true := by
  unfold terminate_named_process
  rcases os.getlogin with e' | login
  · simp
  · exact tnpLoop_events_proc os login target timeout os.processes

/-- The trace of `stop_game` holds no power command. -/
theorem stop_game_no_power {L : Type} (c : GameController L) (os : OS) :
    (c.stop_game os).events.filter isPowerCmd = [] := by
  rw [List.filter_eq_nil_iff]
  intro e he
  have hp : isProcEv e = true := by
    have : ∀ x ∈ (terminate_named_process os c.process_name 10).2,
        isProcEv x = true := tnp_events_proc os c.process_name 10
    apply this
    unfold GameController.stop_game at he
    rcases hs : terminate_named_process os c.process_name 10 with ⟨r, evs⟩
    rcases r with e' | u <;> rw [hs] at he <;> simpa using he
  cases e <;> simp_all [isProcEv, isPowerCmd]

/-- The trace of `stop_game` holds no sleep call. -/
theorem stop_game_no_sleep {L : Type} (c : GameController L) (os : OS) :
    (c.stop_game os).events.filter isSleepEv = [] := by
  rw [List.filter_eq_nil_iff]
  intro e he
  have hp : isProcEv e = true := by
    have : ∀ x ∈ (terminate_named_process os c.process_name 10).2,
        isProcEv x = true := tnp_events_proc os c.process_name 10
    apply this
    unfold GameController.stop_game at he
    rcases hs : terminate_named_process os c.process_name 10 with ⟨r, evs⟩
    rcases r with e' | u <;> rw [hs] at he <;> simpa using he
  cases e <;> simp_all [isProcEv, isSleepEv]

/-- C3: for every delay, `shutdown` with `Sleep` issues, after the delay,
exactly the three power commands hibernation-off, suspend, hibernation-on
in that order, and with `Shutdown` or `Hibernate` exactly one power
command. -/
theorem shutdown_power_command_order {L : Type} (c : GameController L)
    (os : OS) (d : Nat) :
    (c.shutdown os Action.Sleep d).events =
      (c.stop_game os).events ++
        [Ev.sleepE d, Ev.system "powercfg -h off",
         Ev.system "rundll32.exe powrprof.dll,SetSuspendState 0,1,0",
         Ev.system "powercfg -h on"] ∧
    (c.shutdown os Action.Sleep d).events.filter isPowerCmd =
      [Ev.system "powercfg -h off",
       Ev.system "rundll32.exe powrprof.dll,SetSuspendState 0,1,0",
       Ev.system "powercfg -h on"] ∧
    (c.shutdown os Action.Shutdown d).events.filter isPowerCmd =
      [Ev.system "shutdown /s /t 0"] ∧
    (c.shutdown os Action.Hibernate d).events.filter isPowerCmd =
      [Ev.system "shutdown /h"] := by
  have hp := stop_game_no_power c os
  refine ⟨?_, ?_, ?_, ?_⟩ <;>
    simp [GameController.shutdown, List.filter_append, hp, isPowerCmd,
      isSleepEv]

/-- C6: `shutdown` with `Exit` or `Loop` runs `stop_game` first (its trace
is exactly the stop trace), issues no power command, never sleeps, and
returns `True`; for every action the stop trace is a prefix of the
shutdown trace. -/
theorem shutdown_exit_loop_immediate {L : Type} (c : GameController L)
    (os : OS) (d : Nat) (a : Action) :
    (c.shutdown os Action.Exit d).ret = true ∧
    (c.shutdown os Action.Exit d).events = (c.stop_game os).events ∧
    (c.shutdown os Action.Loop d).ret = true ∧
    (c.shutdown os Action.Loop d).events = (c.stop_game os).events ∧
    (c.shutdown os Action.Exit d).events.filter isPowerCmd = [] ∧
    (c.shutdown os Action.Exit d).events.filter isSleepEv = [] ∧
    (c.shutdown os Action.Loop d).events.filter isPowerCmd = [] ∧
    (c.shutdown os Action.Loop d).events.filter isSleepEv = [] ∧
    (∃ rest, (c.shutdown os a d).events = (c.stop_game os).events ++ rest) := by
  have hp := stop_game_no_power c os
  have hs := stop_game_no_sleep c os
  refine ⟨?_, ?_, ?_, ?_, ?_, ?_, ?_, ?_, ?_⟩
  · simp [GameController.shutdown]
  · simp [GameController.shutdown]
  · simp [GameController.shutdown]
  · simp [GameController.shutdown]
  · simp [GameController.shutdown, hp]
  · simp [GameController.shutdown, hs]
  · simp [GameController.shutdown, hp]
  · simp [GameController.shutdown, hs]
  · cases a <;> simp [GameController.shutdown]

/-- C8: construction stores the identity fields as given, with the game
path normalized, and every public operation leaves the controller exactly
as it was. -/
theorem identity_fields_immutable {L : Type} (np : String → String)
    (gp pn wn : String) (wc : Option String) (lg : Option L)
    (c : GameController L) (os : OS) (a : Action) (d : Nat) :
    (GameController.init np gp pn wn wc lg).game_path = np gp ∧
    (GameController.init np gp pn wn wc lg).process_name = pn ∧
    (GameController.init np gp pn wn wc lg).window_name = wn ∧
    (GameController.init np gp pn wn wc lg).window_class = wc ∧
    (c.start_game os).ctrl = c ∧
    (c.stop_game os).ctrl = c ∧
    (c.switch_to_game os).ctrl = c ∧
    (c.get_resolution os).ctrl = c ∧
    (c.shutdown os a d).ctrl = c := by
  refine ⟨rfl, rfl, rfl, rfl, ?_, ?_, ?_, ?_, ?_⟩
  · unfold GameController.start_game
    repeat' split
    all_goals rfl
  · unfold GameController.stop_game
    repeat' split
    all_goals rfl
  · dsimp only [GameController.switch_to_game]
    repeat' split
    all_goals rfl
  · dsimp only [GameController.get_resolution]
    repeat' split
    all_goals rfl
  · dsimp only [GameController.shutdown]
    repeat' split
    all_goals rfl

/-- C9: `stop_game` returns `True` exactly when `terminate_named_process`
raised nothing; with an empty process table (and a readable login) it
returns `True` having signalled no process at all. -/
theorem stop_game_true_iff_no_exception {L : Type} (c : GameController L)
    (os : OS) :
    ((c.stop_game os).ret = true ↔
      (terminate_named_process os c.process_name 10).1 = Except.ok ()) ∧
    (∀ u, os.getlogin = Except.ok u → os.processes = [] →
      (c.stop_game os).ret = true ∧ (c.stop_game os).events = []) := by
  constructor
  · unfold GameController.stop_game
    rcases hs : terminate_named_process os c.process_name 10 with ⟨r, evs⟩
    rcases r with e | u <;> simp
  · intro u hu hp
    unfold GameController.stop_game
    unfold terminate_named_process
    rw [hu, hp]
    simp [tnpLoop]

/-- Witness for C9: on `osNoProcs` (empty process table, login `alice`)
`stop_game` returns `True` with an empty trace, and its `True` result
coincides with the loop's clean completion. -/
theorem stop_game_true_iff_no_exception_witness :
    (cW.stop_game osNoProcs).ret = true ∧
    (cW.stop_game osNoProcs).events = [] ∧
    ((cW.stop_game osNoProcs).ret = true ↔
      (terminate_named_process osNoProcs cW.process_name 10).1 =
        Except.ok ()) :=
  ⟨((stop_game_true_iff_no_exception cW osNoProcs).2 "alice" rfl rfl).1,
   ((stop_game_true_iff_no_exception cW osNoProcs).2 "alice" rfl rfl).2,
   (stop_game_true_iff_no_exception cW osNoProcs).1⟩

/-- Under a benign oracle, a terminate signal for `pid` appears in the loop
trace exactly when some listed process has that pid, a name containing the
target substring, and a resolved owner (domain stripped) equal to the
login name. -/
theorem tnpLoop_terminate_mem (os : OS) (login target : String)
    (timeout pid : Nat)
    (h1 : ∀ q, os.procLookup q = Except.ok ())
    (h2 : ∀ q, os.terminateRes q = Except.ok ())
    (h3 : ∀ q, os.waitRes q = Except.ok ()) :
    ∀ ps : List ProcInfo, (∀ p ∈ ps, ∃ u, p.username = Except.ok u) →
      (Ev.terminate pid ∈ (tnpLoop os login target timeout ps).2 ↔
        ∃ p ∈ ps, p.pid = pid ∧ strContains p.name target = true ∧
          ∃ u, p.username = Except.ok u ∧ login = stripDomain u) := by
  intro ps
  induction ps with
  | nil => simp [tnpLoop]
  | cons p ps ih =>
    intro hu
    obtain ⟨u, hpu⟩ := hu p (List.mem_cons_self p ps)
    have ihr := ih (fun q hq => hu q (List.mem_cons_of_mem p hq))
    by_cases hc : strContains p.name target
    · by_cases hm : login = stripDomain u
      · have hstep : tnpStep os login target timeout p =
            (Except.ok (), [Ev.terminate p.pid, Ev.waitE p.pid timeout]) := by
          simp [tnpStep, hc, hpu, hm, h1, h2, h3]
        have hloop : (tnpLoop os login target timeout (p :: ps)).2 =
            [Ev.terminate p.pid, Ev.waitE p.pid timeout] ++
              (tnpLoop os login target timeout ps).2 := by
          simp [tnpLoop, hstep]
        rw [hloop]
        constructor
        · intro h
          rcases List.mem_append.mp h with h | h
          · rcases List.mem_cons.mp h with h | h
            · injection h with h
              exact ⟨p, List.mem_cons_self p ps, h.symm, hc, u, hpu, hm⟩
            · exact absurd (List.mem_singleton.mp h) (by simp)
          · obtain ⟨q, hq, hrest⟩ := ihr.mp h
            exact ⟨q, List.mem_cons_of_mem p hq, hrest⟩
        · rintro ⟨q, hq, hpid, hqc, v, hv, hvm⟩
          rcases List.mem_cons.mp hq with h | h
          · subst h
            rw [← hpid]
            exact List.mem_append.mpr (Or.inl (List.mem_cons_self _ _))
          · exact List.mem_append.mpr
              (Or.inr (ihr.mpr ⟨q, h, hpid, hqc, v, hv, hvm⟩))
      · have hstep : tnpStep os login target timeout p =
            (Except.ok (), []) := by
          simp [tnpStep, hc, hpu, hm]
        have hloop : (tnpLoop os login target timeout (p :: ps)).2 =
            (tnpLoop os login target timeout ps).2 := by
          simp [tnpLoop, hstep]
        rw [hloop, ihr]
        constructor
        · rintro ⟨q, hq, hrest⟩
          exact ⟨q, List.mem_cons_of_mem p hq, hrest⟩
        · rintro ⟨q, hq, hpid, hqc, v, hv, hvm⟩
          rcases List.mem_cons.mp hq with h | h
          · subst h
            rw [hpu] at hv
            injection hv with hv
            subst hv
            exact absurd hvm hm
          · exact ⟨q, h, hpid, hqc, v, hv, hvm⟩
    · have hstep : tnpStep os login target timeout p =
          (Except.ok (), []) := by
        simp [tnpStep, hc]
      have hloop : (tnpLoop os login target timeout (p :: ps)).2 =
          (tnpLoop os login target timeout ps).2 := by
        simp [tnpLoop, hstep]
      rw [hloop, ihr]
      constructor
      · rintro ⟨q, hq, hrest⟩
        exact ⟨q, List.mem_cons_of_mem p hq, hrest⟩
      · rintro ⟨q, hq, hpid, hqc, v, hv, hvm⟩
        rcases List.mem_cons.mp hq with h | h
        · subst h
          exact absurd hqc (by simp [hc])
        · exact ⟨q, h, hpid, hqc, v, hv, hvm⟩

/-- C2: under a benign oracle, `terminate_named_process` signals exactly
those running processes whose name contains the target substring and whose
resolved owner (domain prefix stripped) equals the invoking user's login
name; every process failing either predicate is left untouched. -/
theorem terminate_signals_exactly_matching (os : OS) (target login : String)
    (timeout pid : Nat) (hl : os.getlogin = Except.ok login)
    (hb : os.benign) :
    Ev.terminate pid ∈ (terminate_named_process os target timeout).2 ↔
      ∃ p ∈ os.processes, p.pid = pid ∧ strContains p.name target = true ∧
        ∃ u, p.username = Except.ok u ∧ login = stripDomain u := by
  obtain ⟨h1, h2, h3, h4⟩ := hb
  unfold terminate_named_process
  rw [hl]
  exact tnpLoop_terminate_mem os login target timeout pid h1 h2 h3
    os.processes h4

/-- The fixture oracle `osW` is benign. -/
theorem osW_benign : osW.benign := by
  refine ⟨fun _ => rfl, fun _ => rfl, fun _ => rfl, ?_⟩
  intro p hp
  have : p = (⟨41, "StarRail.exe", Except.ok "PC\\alice"⟩ : ProcInfo) ∨
      p = (⟨42, "StarRail.exe", Except.ok "PC\\bob"⟩ : ProcInfo) ∨
      p = (⟨43, "explorer.exe", Except.ok "PC\\alice"⟩ : ProcInfo) := by
    simpa [osW, procsW] using hp
  rcases this with h | h | h <;> subst h <;> exact ⟨_, rfl⟩

/-- Witness for C2: with login `alice` and the table `procsW`, only process
41 (matching name, owner `PC\alice`) is signalled; process 42 (matching
name, owner `PC\bob`) and process 43 (non-matching name) are untouched. -/
theorem terminate_signals_exactly_matching_witness :
    osW.getlogin = Except.ok "alice" ∧ osW.benign ∧
    Ev.terminate 41 ∈ (terminate_named_process osW "StarRail.exe" 10).2 ∧
    Ev.terminate 42 ∉ (terminate_named_process osW "StarRail.exe" 10).2 ∧
    Ev.terminate 43 ∉ (terminate_named_process osW "StarRail.exe" 10).2 :=
  ⟨rfl, osW_benign,
   (terminate_signals_exactly_matching osW "StarRail.exe" "alice" 10 41
       rfl osW_benign).mpr
     ⟨⟨41, "StarRail.exe", Except.ok "PC\\alice"⟩, by simp [osW, procsW],
       rfl, by decide, "PC\\alice", rfl, by decide⟩,
   by decide, by decide⟩

/-- `start_game` yields the same result and OS events for any two loggers. -/
theorem start_game_logger_indep {L₁ L₂ : Type} (gp pn wn : String)
    (wc : Option String) (lg₁ : Option L₁) (lg₂ : Option L₂) (os : OS) :
    ((⟨gp, pn, wn, wc, lg₁⟩ : GameController L₁).start_game os).ret =
      ((⟨gp, pn, wn, wc, lg₂⟩ : GameController L₂).start_game os).ret ∧
    ((⟨gp, pn, wn, wc, lg₁⟩ : GameController L₁).start_game os).events =
      ((⟨gp, pn, wn, wc, lg₂⟩ : GameController L₂).start_game os).events := by
  by_cases h : os.pathExists gp
  · by_cases h2 : os.systemRet (spawnCmd gp) = 0 <;>
      simp [GameController.start_game, h, h2]
  · simp [GameController.start_game, h]

/-- `stop_game` yields the same result and OS events for any two loggers. -/
theorem stop_game_logger_indep {L₁ L₂ : Type} (gp pn wn : String)
    (wc : Option String) (lg₁ : Option L₁) (lg₂ : Option L₂) (os : OS) :
    ((⟨gp, pn, wn, wc, lg₁⟩ : GameController L₁).stop_game os).ret =
      ((⟨gp, pn, wn, wc, lg₂⟩ : GameController L₂).stop_game os).ret ∧
    ((⟨gp, pn, wn, wc, lg₁⟩ : GameController L₁).stop_game os).events =
      ((⟨gp, pn, wn, wc, lg₂⟩ : GameController L₂).stop_game os).events := by
  rcases hs : terminate_named_process os pn 10 with ⟨r, evs⟩
  rcases r with e | u <;> simp [GameController.stop_game, hs]

/-- `switch_to_game` yields the same result and OS events for any two
loggers. -/
theorem switch_to_game_logger_indep {L₁ L₂ : Type} (gp pn wn : String)
    (wc : Option String) (lg₁ : Option L₁) (lg₂ : Option L₂) (os : OS) :
    ((⟨gp, pn, wn, wc, lg₁⟩ : GameController L₁).switch_to_game os).ret =
      ((⟨gp, pn, wn, wc, lg₂⟩ : GameController L₂).switch_to_game os).ret ∧
    ((⟨gp, pn, wn, wc, lg₁⟩ : GameController L₁).switch_to_game os).events =
      ((⟨gp, pn, wn, wc, lg₂⟩ : GameController L₂).switch_to_game os).events := by
  by_cases h : os.findWindow wc wn = 0
  · simp [GameController.switch_to_game, h]
  · rcases hr : set_foreground_window_with_retry os (os.findWindow wc wn)
      with ⟨r, evs⟩
    rcases r with e | u <;> simp [GameController.switch_to_game, h, hr]

/-- `get_resolution` yields the same result and OS events for any two
loggers. -/
theorem get_resolution_logger_indep {L₁ L₂ : Type} (gp pn wn : String)
    (wc : Option String) (lg₁ : Option L₁) (lg₂ : Option L₂) (os : OS) :
    ((⟨gp, pn, wn, wc, lg₁⟩ : GameController L₁).get_resolution os).ret =
      ((⟨gp, pn, wn, wc, lg₂⟩ : GameController L₂).get_resolution os).ret ∧
    ((⟨gp, pn, wn, wc, lg₁⟩ : GameController L₁).get_resolution os).events =
      ((⟨gp, pn, wn, wc, lg₂⟩ : GameController L₂).get_resolution os).events := by
  by_cases h : os.findWindow wc wn = 0
  · simp [GameController.get_resolution, h]
  · rcases hr : os.getClientRect (os.findWindow wc wn) with e | r
    · by_cases hi : e.isIndexError <;>
        simp [GameController.get_resolution, h, hr, hi]
    · rcases r with ⟨a, b, w, hgt⟩
      simp [GameController.get_resolution, h, hr]

/-- `shutdown` yields the same result and OS events for any two loggers. -/
theorem shutdown_logger_indep {L₁ L₂ : Type} (gp pn wn : String)
    (wc : Option String) (lg₁ : Option L₁) (lg₂ : Option L₂) (os : OS)
    (a : Action) (d : Nat) :
    ((⟨gp, pn, wn, wc, lg₁⟩ : GameController L₁).shutdown os a d).ret =
      ((⟨gp, pn, wn, wc, lg₂⟩ : GameController L₂).shutdown os a d).ret ∧
    ((⟨gp, pn, wn, wc, lg₁⟩ : GameController L₁).shutdown os a d).events =
      ((⟨gp, pn, wn, wc, lg₂⟩ : GameController L₂).shutdown os a d).events := by
  have hstop := stop_game_logger_indep gp pn wn wc lg₁ lg₂ os
  by_cases h : a ∈ [Action.Shutdown, Action.Hibernate, Action.Sleep] <;>
    simp [GameController.shutdown, h, hstop.2]

/-- C10: every public operation returns the same value (and issues the
same OS calls) whether the logger is absent or any sink: two controllers
differing only in the logger field are observationally equal apart from
the log trace. -/
theorem logger_noninterference (L₁ L₂ : Type) (gp pn wn : String)
    (wc : Option String) (lg₁ : Option L₁) (lg₂ : Option L₂) (os : OS)
    (a : Action) (d : Nat) :
    ((⟨gp, pn, wn, wc, lg₁⟩ : GameController L₁).start_game os).ret =
      ((⟨gp, pn, wn, wc, lg₂⟩ : GameController L₂).start_game os).ret ∧
    ((⟨gp, pn, wn, wc, lg₁⟩ : GameController L₁).stop_game os).ret =
      ((⟨gp, pn, wn, wc, lg₂⟩ : GameController L₂).stop_game os).ret ∧
    ((⟨gp, pn, wn, wc, lg₁⟩ : GameController L₁).switch_to_game os).ret =
      ((⟨gp, pn, wn, wc, lg₂⟩ : GameController L₂).switch_to_game os).ret ∧
    ((⟨gp, pn, wn, wc, lg₁⟩ : GameController L₁).get_resolution os).ret =
      ((⟨gp, pn, wn, wc, lg₂⟩ : GameController L₂).get_resolution os).ret ∧
    ((⟨gp, pn, wn, wc, lg₁⟩ : GameController L₁).shutdown os a d).ret =
      ((⟨gp, pn, wn, wc, lg₂⟩ : GameController L₂).shutdown os a d).ret ∧
    ((⟨gp, pn, wn, wc, lg₁⟩ : GameController L₁).start_game os).events =
      ((⟨gp, pn, wn, wc, lg₂⟩ : GameController L₂).start_game os).events ∧
    ((⟨gp, pn, wn, wc, lg₁⟩ : GameController L₁).stop_game os).events =
      ((⟨gp, pn, wn, wc, lg₂⟩ : GameController L₂).stop_game os).events ∧
    ((⟨gp, pn, wn, wc, lg₁⟩ : GameController L₁).switch_to_game os).events =
      ((⟨gp, pn, wn, wc, lg₂⟩ : GameController L₂).switch_to_game os).events ∧
    ((⟨gp, pn, wn, wc, lg₁⟩ : GameController L₁).get_resolution os).events =
      ((⟨gp, pn, wn, wc, lg₂⟩ : GameController L₂).get_resolution os).events ∧
    ((⟨gp, pn, wn, wc, lg₁⟩ : GameController L₁).shutdown os a d).events =
      ((⟨gp, pn, wn, wc, lg₂⟩ : GameController L₂).shutdown os a d).events :=
  ⟨(start_game_logger_indep gp pn wn wc lg₁ lg₂ os).1,
   (stop_game_logger_indep gp pn wn wc lg₁ lg₂ os).1,
   (switch_to_game_logger_indep gp pn wn wc lg₁ lg₂ os).1,
   (get_resolution_logger_indep gp pn wn wc lg₁ lg₂ os).1,
   (shutdown_logger_indep gp pn wn wc lg₁ lg₂ os a d).1,
   (start_game_logger_indep gp pn wn wc lg₁ lg₂ os).2,
   (stop_game_logger_indep gp pn wn wc lg₁ lg₂ os).2,
   (switch_to_game_logger_indep gp pn wn wc lg₁ lg₂ os).2,
   (get_resolution_logger_indep gp pn wn wc lg₁ lg₂ os).2,
   (shutdown_logger_indep gp pn wn wc lg₁ lg₂ os a d).2⟩

/-- C1 is false as stated: when the geometry query raises an exception that
is not an `IndexError`, `get_resolution` does not surface an absent result
— the exception escapes the operation. -/
theorem exception_escapes_get_resolution :
    (cW.get_resolution osBadRect).ret =
      Except.error ⟨false, "win32 error"⟩ ∧
    (cW.get_resolution osBadRect).ret ≠ Except.ok none := by
  have e1 : (cW.get_resolution osBadRect).ret =
      Except.error ⟨false, "win32 error"⟩ := rfl
  refine ⟨e1, ?_⟩
  rw [e1]
  intro h
  exact Except.noConfusion h

/-- C1 (amended): an exception escapes `get_resolution` exactly when the
window was found and the geometry query raised a non-`IndexError`
exception; an `IndexError` from the query is surfaced as an absent
result.  (`stop_game` and `switch_to_game` catch everything, which the
embedding reflects by their `Bool` result type.) -/
theorem exception_boundary_amended {L : Type} (c : GameController L)
    (os : OS) (e : Exn) :
    ((c.get_resolution os).ret = Except.error e ↔
      (os.findWindow c.window_class c.window_name ≠ 0 ∧
       os.getClientRect (os.findWindow c.window_class c.window_name) =
         Except.error e ∧
       e.isIndexError = false)) ∧
    (os.findWindow c.window_class c.window_name ≠ 0 →
      os.getClientRect (os.findWindow c.window_class c.window_name) =
        Except.error e →
      e.isIndexError = true →
      (c.get_resolution os).ret = Except.ok none) := by
  by_cases h : os.findWindow c.window_class c.window_name = 0
  · have hret : (c.get_resolution os).ret = Except.ok none := by
      simp [GameController.get_resolution, h]
    constructor
    · rw [hret]
      constructor
      · intro hcontra
        exact Except.noConfusion hcontra
      · rintro ⟨hne, _, _⟩
        exact absurd h hne
    · intro hne _ _
      exact absurd h hne
  · rcases hr : os.getClientRect (os.findWindow c.window_class c.window_name)
      with e' | r
    · by_cases hi : e'.isIndexError = true
      · have hret : (c.get_resolution os).ret = Except.ok none := by
          simp [GameController.get_resolution, h, hr, hi]
        constructor
        · rw [hret]
          constructor
          · intro hcontra
            exact Except.noConfusion hcontra
          · rintro ⟨hne, hee, hif⟩
            have he' : e' = e := by injection hee
            rw [he'] at hi
            rw [hif] at hi
            exact Bool.noConfusion hi
        · intro hne hee hif
          exact hret
      · have hret : (c.get_resolution os).ret = Except.error e' := by
          simp [GameController.get_resolution, h, hr, hi]
        constructor
        · rw [hret]
          constructor
          · intro hee
            injection hee with hh
            subst hh
            exact ⟨h, rfl, by simpa using hi⟩
          · rintro ⟨hne, hee, hif⟩
            have he' : e' = e := by injection hee
            rw [he']
        · intro hne hee hif
          have he' : e' = e := by injection hee
          rw [he'] at hi
          exact absurd hif hi
    · obtain ⟨x1, x2, w2, h2⟩ := r
      have hret : (c.get_resolution os).ret = Except.ok (some (w2, h2)) := by
        simp [GameController.get_resolution, h, hr]
      constructor
      · rw [hret]
        constructor
        · intro hcontra
          exact Except.noConfusion hcontra
        · rintro ⟨hne, hee, hif⟩
          exact Except.noConfusion hee
      · intro hne hee hif
        exact Except.noConfusion hee

/-- Witness for the amended C1: on `osIdxRect` the `IndexError` is turned
into an absent result; on `osBadRect` the non-`IndexError` escapes. -/
theorem exception_boundary_amended_witness :
    (cW.get_resolution osIdxRect).ret = Except.ok none ∧
    (cW.get_resolution osBadRect).ret =
      Except.error ⟨false, "win32 error"⟩ :=
  ⟨(exception_boundary_amended cW osIdxRect ⟨true, "index error"⟩).2
      (by decide) rfl rfl,
   (exception_boundary_amended cW osBadRect ⟨false, "win32 error"⟩).1.mpr
      ⟨by decide, rfl, rfl⟩⟩

end GameCtrl
